import Mathlib

/-!
Verification of the adventure-game subsystem of this repository
(src/assets/js/adventureGame/code.js): entity geometry, axis-aligned
collision detection with hitbox insets, the per-frame update of movable
(Character/Player) and stationary (Npc) entities, the entity registry
lifecycle (destroy, level teardown and reload), and the interaction
panel (Prompt).  Positions, sizes and velocities are modelled as
rationals; DOM/canvas drawing and alerts, which touch no modelled state,
are omitted and noted where they occur in the source.
-/

namespace AdventureGame

/-- Bounding rectangle of a canvas, as returned by
canvas.getBoundingClientRect(). -/
structure Rect where
  left : ℚ
  top : ℚ
  right : ℚ
  bottom : ℚ
deriving DecidableEq

/-- DOMRect width (right - left). -/
def Rect.width (r : Rect) : ℚ := r.right - r.left

/-- DOMRect height (bottom - top). -/
def Rect.height (r : Rect) : ℚ := r.bottom - r.top

/-- Hitbox inset percentages of an entity (data.hitbox); a missing
percentage reads as 0.0 in the source via the or-default. -/
structure Hitbox where
  widthPercentage : ℚ
  heightPercentage : ℚ
deriving DecidableEq

/-- One side of the touchPoints record built by GameObject.isCollision. -/
structure TouchPoints where
  id : String
  greet : String
  top : Bool
  bottom : Bool
  left : Bool
  right : Bool
deriving DecidableEq

/-- The collisionData record written by GameObject.isCollision:
a hit flag plus touch points for this object and the other object. -/
structure CollisionData where
  hit : Bool
  tpThis : TouchPoints
  tpOther : TouchPoints
deriving DecidableEq

/-- The empty touchPoints value (all reads of the initial empty JS object
come back undefined, i.e. falsy). -/
def TouchPoints.empty : TouchPoints :=
  { id := "", greet := "", top := false, bottom := false, left := false, right := false }

/-- Initial collisionData: the GameObject constructor sets it to the empty
object, whose hit property reads as undefined (falsy). -/
def CollisionData.empty : CollisionData :=
  { hit := false, tpThis := TouchPoints.empty, tpOther := TouchPoints.empty }

/-- Per-direction movement-permission flags (state.movement). -/
structure MoveFlags where
  up : Bool
  down : Bool
  left : Bool
  right : Bool
deriving DecidableEq

/-- A 2D vector (position or velocity in viewport pixels). -/
structure Vec2 where
  x : ℚ
  y : ℚ
deriving DecidableEq

/-- A live game object: the fields of Character/GameObject that the
verified operations read or write.  ref models JavaScript object identity
(the source compares this != gameObj by reference); rect models the
canvas bounding rectangle; id is canvas.id; greet is spriteData.greeting.
Animation counters and the DOM canvas itself are not modelled: draw()
only touches those. -/
structure Entity where
  ref : Nat
  id : String
  greet : String
  hasCanvas : Bool
  rect : Rect
  hitbox : Hitbox
  position : Vec2
  velocity : Vec2
  width : ℚ
  height : ℚ
  collisionData : CollisionData
  collisionEvents : List String
  movement : MoveFlags
deriving DecidableEq

/-- GameObject.isCollision: builds the inset hitbox of each object
(left and top pushed inward by width/height reductions, right pulled
inward, bottom unchanged), computes the strict-overlap hit flag, and the
per-side touch points of both objects. -/
def isCollision (self other : Entity) : CollisionData :=
  let thisRect := self.rect
  let otherRect := other.rect
  let thisWidthReduction := thisRect.width * self.hitbox.widthPercentage
  let thisHeightReduction := thisRect.height * self.hitbox.heightPercentage
  let otherWidthReduction := otherRect.width * other.hitbox.widthPercentage
  let otherHeightReduction := otherRect.height * other.hitbox.heightPercentage
  let thisLeft := thisRect.left + thisWidthReduction
  let thisTop := thisRect.top + thisHeightReduction
  let thisRight := thisRect.right - thisWidthReduction
  let thisBottom := thisRect.bottom
  let otherLeft := otherRect.left + otherWidthReduction
  let otherTop := otherRect.top + otherHeightReduction
  let otherRight := otherRect.right - otherWidthReduction
  let otherBottom := otherRect.bottom
  { hit := decide (thisLeft < otherRight) && decide (thisRight > otherLeft) &&
      decide (thisTop < otherBottom) && decide (thisBottom > otherTop)
    tpThis :=
      { id := self.id
        greet := self.greet
        top := decide (thisBottom > otherTop) && decide (thisTop < otherTop)
        bottom := decide (thisTop < otherBottom) && decide (thisBottom > otherBottom)
        left := decide (thisRight > otherLeft) && decide (thisLeft < otherLeft)
        right := decide (thisLeft < otherRight) && decide (thisRight > otherRight) }
    tpOther :=
      { id := other.id
        greet := other.greet
        top := decide (otherBottom > thisTop) && decide (otherTop < thisTop)
        bottom := decide (otherTop < thisBottom) && decide (otherBottom > thisBottom)
        left := decide (otherRight > thisLeft) && decide (otherLeft < thisLeft)
        right := decide (otherLeft < thisRight) && decide (otherRight > thisRight) } }

/-- The guard of the collision loop: gameObj.canvas is truthy and
this != gameObj (reference inequality, modelled by ref). -/
def validB (self obj : Entity) : Bool :=
  obj.hasCanvas && !(self.ref == obj.ref)

/-- Whether a registry member both passes the loop guard and produces a
hit against self. -/
def hitB (self obj : Entity) : Bool :=
  validB self obj && (isCollision self obj).hit

/-- The movement-permission flags produced by handleCollisionState from
a touchPoints record: start from all-allowed, then each touching side
forbids the corresponding direction. -/
def movementOf (tp : TouchPoints) : MoveFlags :=
  { up := !tp.bottom, down := !tp.top, left := !tp.right, right := !tp.left }

/-- GameObject.handleCollisionState: when the collision-events list is
nonempty, reset movement to all-allowed, then for each touching side of
this object's touch points forbid the corresponding direction and zero
the velocity on that axis when it points into the touch. -/
def handleCollisionState (e : Entity) : Entity :=
  if 0 < e.collisionEvents.length then
    let tp := e.collisionData.tpThis
    let m1 : MoveFlags := { up := true, down := true, left := true, right := true }
    let m2 := if tp.top then { m1 with down := false } else m1
    let vy1 := if tp.top && decide (e.velocity.y > 0) then (0 : ℚ) else e.velocity.y
    let m3 := if tp.bottom then { m2 with up := false } else m2
    let vy2 := if tp.bottom && decide (vy1 < 0) then (0 : ℚ) else vy1
    let m4 := if tp.right then { m3 with left := false } else m3
    let vx1 := if tp.right && decide (e.velocity.x < 0) then (0 : ℚ) else e.velocity.x
    let m5 := if tp.left then { m4 with right := false } else m4
    let vx2 := if tp.left && decide (vx1 > 0) then (0 : ℚ) else vx1
    { e with movement := m5, velocity := { x := vx2, y := vy2 } }
  else e

/-- GameObject.handleCollisionEvent: record the other object's id in the
collision-events list when not already present (handleCollisionReaction,
an alert, touches no modelled state), then update the movement state. -/
def handleCollisionEvent (e : Entity) : Entity :=
  let objectOtherId := e.collisionData.tpOther.id
  let e1 :=
    if objectOtherId ∈ e.collisionEvents then e
    else { e with collisionEvents := e.collisionEvents ++ [objectOtherId] }
  handleCollisionState e1

/-- The for-of loop body of GameObject.collisionChecks, iterating over the
registry: for every member with a canvas other than self, run isCollision
(overwriting collisionData), and on a hit remember that a collision was
detected and handle the collision event. -/
def ccLoop : Entity → Bool → List Entity → Entity × Bool
  | e, detected, [] => (e, detected)
  | e, detected, gameObj :: rest =>
    if validB e gameObj = true then
      let e1 : Entity := { e with collisionData := isCollision e gameObj }
      if e1.collisionData.hit = true then
        ccLoop (handleCollisionEvent e1) true rest
      else
        ccLoop e1 detected rest
    else
      ccLoop e detected rest

/-- GameObject.collisionChecks: run the loop over the registry starting
with no collision detected; when no member registered a hit, reset the
collision-events list to empty. -/
def collisionChecks (self : Entity) (registry : List Entity) : Entity :=
  let r := ccLoop self false registry
  if r.2 = true then r.1 else { r.1 with collisionEvents := [] }

/-- Character.update with viewport dimensions (GameEnv.innerWidth,
GameEnv.innerHeight): draw (animation only, not modelled), run collision
checks, integrate velocity into position, then clamp the position to the
viewport boundaries in source order (bottom, top, right, left), zeroing
the velocity on each clamped axis. -/
def characterUpdate (innerWidth innerHeight : ℚ) (registry : List Entity)
    (self : Entity) : Entity :=
  let e := collisionChecks self registry
  let px := e.position.x + e.velocity.x
  let py := e.position.y + e.velocity.y
  let py1 := if py + e.height > innerHeight then innerHeight - e.height else py
  let vy1 := if py + e.height > innerHeight then (0 : ℚ) else e.velocity.y
  let py2 := if py1 < 0 then (0 : ℚ) else py1
  let vy2 := if py1 < 0 then (0 : ℚ) else vy1
  let px1 := if px + e.width > innerWidth then innerWidth - e.width else px
  let vx1 := if px + e.width > innerWidth then (0 : ℚ) else e.velocity.x
  let px2 := if px1 < 0 then (0 : ℚ) else px1
  let vx2 := if px1 < 0 then (0 : ℚ) else vx1
  { e with position := { x := px2, y := py2 }
           velocity := { x := vx2, y := vy2 } }

/-- Npc.update: the override only calls draw(), which advances animation
state and touches no modelled field; no collision checks, no movement,
no clamping. -/
def npcUpdate (self : Entity) : Entity := self

/-- Modelled from the spec for claim C2 only: the inset rectangle in the
spec's words (left edge moved right by width-inset, top edge moved down
by height-inset, right edge moved left by width-inset, bottom edge
unchanged).  Compared against the hit flag computed by isCollision. -/
def specInsetRect (r : Rect) (hb : Hitbox) : Rect :=
  { left := r.left + r.width * hb.widthPercentage
    top := r.top + r.height * hb.heightPercentage
    right := r.right - r.width * hb.widthPercentage
    bottom := r.bottom }

/-- Modelled from the spec for claim C2 only: strict AABB overlap, all
four edge comparisons strict, so exactly touching edges do not count. -/
def specStrictOverlap (a b : Rect) : Prop :=
  a.left < b.right ∧ b.left < a.right ∧ a.top < b.bottom ∧ b.top < a.bottom

/-- Zero hitbox inset (full rectangle). -/
def hbZero : Hitbox := { widthPercentage := 0, heightPercentage := 0 }

/-- All movement directions allowed (the constructor's initial value). -/
def MoveFlags.allTrue : MoveFlags := { up := true, down := true, left := true, right := true }

/-- Builds a plain live entity at a given rectangle, with no hitbox inset,
zero velocity, empty collision state. -/
def baseEnt (ref : Nat) (id : String) (r : Rect) : Entity :=
  { ref := ref, id := id, greet := "hello", hasCanvas := true, rect := r, hitbox := hbZero
    position := { x := r.left, y := r.top }, velocity := { x := 0, y := 0 }
    width := r.right - r.left, height := r.bottom - r.top
    collisionData := CollisionData.empty, collisionEvents := [], movement := MoveFlags.allTrue }

/-- The rectangle 0,0,50,50 of the spec scenario. -/
def rectA : Rect := { left := 0, top := 0, right := 50, bottom := 50 }

/-- The rectangle 40,40,90,90 of the spec scenario. -/
def rectB : Rect := { left := 40, top := 40, right := 90, bottom := 90 }

/-- Concrete entity at rectangle 0,0,50,50. -/
def entA : Entity := baseEnt 0 ("A") rectA

/-- Concrete entity at rectangle 40,40,90,90. -/
def entB : Entity := baseEnt 1 ("B") rectB

/-- A stationary entity standing outside a 100-wide viewport. -/
def npcStale : Entity :=
  baseEnt 2 ("Tux") { left := 200, top := 0, right := 210, bottom := 10 }

/-- A movable entity about to cross both the right and the top viewport
edges of a 100 x 100 viewport. -/
def entMover : Entity :=
  { baseEnt 3 ("Mover") { left := 95, top := 0, right := 105, bottom := 10 } with
      position := { x := 95, y := -5 }, velocity := { x := 10, y := 0 } }

/-- An entity that already carries a previously recorded touch id. -/
def selfOld : Entity := { baseEnt 6 ("SelfOld") rectA with collisionEvents := ["old"] }

/-- The scale record kept by a Character (previous viewport dimensions). -/
structure Scale where
  width : ℚ
  height : ℚ
deriving DecidableEq

/-- The geometric fields of a Character read and written by
Character.resize. -/
structure CharacterGeom where
  position : Vec2
  scale : Scale
  scaleFactor : ℚ
  stepFactor : ℚ
  size : ℚ
  width : ℚ
  height : ℚ
  xVelocity : ℚ
  yVelocity : ℚ
deriving DecidableEq

/-- Character.resize with the new viewport dimensions (GameEnv.innerWidth,
GameEnv.innerHeight): rescales the position by the ratio of new to old
scale, stores the new scale, recomputes size as new height over the scale
factor, the per-press velocity steps as new dimensions over the step
factor, and sets width and height to the (square) size. -/
def resize (innerWidth innerHeight : ℚ) (c : CharacterGeom) : CharacterGeom :=
  let newScaleW := innerWidth
  let newScaleH := innerHeight
  let posX := c.position.x / c.scale.width * newScaleW
  let posY := c.position.y / c.scale.height * newScaleH
  let size := newScaleH / c.scaleFactor
  { position := { x := posX, y := posY }
    scale := { width := newScaleW, height := newScaleH }
    scaleFactor := c.scaleFactor
    stepFactor := c.stepFactor
    size := size
    width := size
    height := size
    xVelocity := newScaleW / c.stepFactor
    yVelocity := newScaleH / c.stepFactor }

/-- A Character with scale factor 5 and step factor 1000, as in the
spec's scenario (the Chill Guy player descriptor). -/
def demoGeom : CharacterGeom :=
  { position := { x := 0, y := 0 }, scale := { width := 1, height := 1 }
    scaleFactor := 5, stepFactor := 1000
    size := 0, width := 0, height := 0, xVelocity := 0, yVelocity := 0 }

/-- A registry entry for the lifecycle model: ref models JavaScript
object identity, levelIdx records which level load constructed it. -/
structure GObj where
  ref : Nat
  levelIdx : Nat
deriving DecidableEq

/-- Array.prototype.indexOf on the registry: the first index holding
self, or none when absent (reference equality modelled on GObj values). -/
def jsIndexOf : List GObj → GObj → Option Nat
  | [], _ => none
  | a :: rest, s => if a = s then some 0 else (jsIndexOf rest s).map (fun i => i + 1)

/-- Character.destroy: look self up in GameEnv.gameObjects; when found,
remove the canvas from the DOM (no modelled state) and splice self out;
when not found, do nothing. -/
def destroy (registry : List GObj) (self : GObj) : List GObj :=
  match jsIndexOf registry self with
  | some i => registry.eraseIdx i
  | none => registry

/-- The teardown loop of GameControl.handleLevelEnd: for index from
length - 1 down to 0, destroy gameObjects at that index.  Returns the
final registry and the destruction order; none models the TypeError an
out-of-range index would raise. -/
def teardownLoop : Nat → List GObj → List GObj → Option (List GObj × List GObj)
  | 0, objs, log => some (objs, log)
  | i + 1, objs, log =>
    match objs[i]? with
    | some e => teardownLoop i (destroy objs e) (log ++ [e])
    | none => none

/-- The GameControl/GameEnv state the level lifecycle reads and writes;
nextRef is the supply of fresh object identities for constructors. -/
structure GameState where
  gameObjects : List GObj
  currentLevelIndex : Nat
  continueLevel : Bool
  nextRef : Nat
deriving DecidableEq

/-- GameControl.loadLevel over a level table (one entry per level class,
holding its object count): past the last level it only stops the timer
and returns; otherwise it raises the continue flag, empties the registry
and instantiates the level's objects, each constructor pushing one fresh
entity (currentPass, a message counter, is not modelled). -/
def loadLevel (levels : List Nat) (s : GameState) : GameState :=
  if levels.length ≤ s.currentLevelIndex then s
  else
    let n := levels.getD s.currentLevelIndex 0
    { s with continueLevel := true
             gameObjects := (List.range n).map
               (fun k => { ref := s.nextRef + k, levelIdx := s.currentLevelIndex })
             nextRef := s.nextRef + n }

/-- GameControl.handleLevelEnd (invoked by gameLoop exactly when the
continue flag is false at the start of a tick): alert (no modelled
state), destroy all registry objects from the last index down to 0,
advance the level index by one, and load the next level.  Returns the
new state and the destruction order. -/
def handleLevelEnd (levels : List Nat) (s : GameState) :
    Option (GameState × List GObj) :=
  match teardownLoop s.gameObjects.length s.gameObjects [] with
  | none => none
  | some (objs, log) =>
    some (loadLevel levels
      { s with gameObjects := objs, currentLevelIndex := s.currentLevelIndex + 1 }, log)

/-- A concrete registry entry. -/
def g0 : GObj := { ref := 0, levelIdx := 0 }

/-- Another concrete registry entry. -/
def g1 : GObj := { ref := 1, levelIdx := 0 }

/-- A state at the end of level A of a two-level game: two live objects,
continue flag lowered. -/
def demoEndState : GameState :=
  { gameObjects := [g0, g1], currentLevelIndex := 0, continueLevel := false, nextRef := 2 }

/-- The sprite-descriptor fields of Character's constructor that control
the error path and the registry push; the remaining descriptor fields
(pixels, factors, orientation rows) only initialise drawing state. -/
structure SpriteData where
  id : Option String
  src : Option String
deriving DecidableEq

/-- Character's constructor acting on the registry: with a null
descriptor the canvas.id assignment reads data.id and raises a
TypeError; with a descriptor lacking src the else branch raises the
sprite-data error; both happen before the GameEnv.gameObjects.push line,
so the error carries the untouched registry (the canvas appended to the
DOM before the src check is not modelled).  On success the new entity is
pushed and resize runs (no registry effect). -/
def characterConstructor (data : Option SpriteData) (gameObjects : List GObj)
    (nextRef levelIdx : Nat) : Except (String × List GObj) (List GObj × Nat) :=
  match data with
  | none => Except.error ("TypeError: cannot read id of null", gameObjects)
  | some d =>
    match d.src with
    | some _ =>
      Except.ok (gameObjects ++ [{ ref := nextRef, levelIdx := levelIdx }], nextRef + 1)
    | none => Except.error ("Sprite data is required", gameObjects)

/-- A quiz descriptor: a title and its question strings. -/
structure Quiz where
  title : String
  questions : List String
deriving DecidableEq

/-- The fields of an Npc that the prompt panel reads. -/
structure NpcPanelData where
  quiz : Option String
  questions : List String
deriving DecidableEq

/-- Npc's constructor fields feeding the panel: this.quiz holds
data?.quiz?.title (the title string, or undefined without a quiz) and
this.questions holds the shuffled question array (or empty); the shuffle
draws from Math.random, so it is a parameter here. -/
def npcPanelData (quiz : Option Quiz) (shuffled : List String → List String) :
    NpcPanelData :=
  { quiz := quiz.map Quiz.title
    questions := shuffled (match quiz with | some q => q.questions | none => []) }

/-- JavaScript property read of title on a String value: strings have no
title property, so the read yields undefined. -/
def stringTitleProp (_s : String) : Option String := none

/-- One rendered question row of the prompt table: the question text and
how many text inputs it holds. -/
structure PanelRow where
  questionText : String
  textInputs : Nat
deriving DecidableEq

/-- The displayed panel: its title element and its table. -/
structure PanelContent where
  title : String
  rows : List PanelRow
  hasSubmitButtonRow : Bool
deriving DecidableEq

/-- Prompt.updatePromptTable for the current npc: one row per question,
each holding exactly one text input, plus the submit-button row (the
questions field of a constructed Npc is always an array, and arrays are
truthy even when empty, so the no-questions branch is dead). -/
def updatePromptTable (npc : NpcPanelData) : List PanelRow × Bool :=
  (npc.questions.map (fun q => { questionText := q, textInputs := 1 }), true)

/-- Prompt.openPromptPanel: force-close any open panel and its dim (no
modelled state), clear the drop-down, show the title element and set it
to npc.quiz.title with the fallback Questions (npc.quiz holds the title
string itself, and a string has no title property), then append the
fresh question table. -/
def openPromptPanel (npc : NpcPanelData) : Except String PanelContent :=
  match npc.quiz with
  | none => Except.error ("TypeError: cannot read title of undefined")
  | some t =>
    let table := updatePromptTable npc
    Except.ok { title := (stringTitleProp t).getD ("Questions")
                rows := table.1
                hasSubmitButtonRow := table.2 }

/-! Theorems.  First, frame lemmas: which fields each collision operation
leaves untouched. -/

theorem hcs_ref (e : Entity) : (handleCollisionState e).ref = e.ref := by
  unfold handleCollisionState; split <;> rfl

theorem hcs_rect (e : Entity) : (handleCollisionState e).rect = e.rect := by
  unfold handleCollisionState; split <;> rfl

theorem hcs_hitbox (e : Entity) : (handleCollisionState e).hitbox = e.hitbox := by
  unfold handleCollisionState; split <;> rfl

theorem hcs_id (e : Entity) : (handleCollisionState e).id = e.id := by
  unfold handleCollisionState; split <;> rfl

theorem hcs_greet (e : Entity) : (handleCollisionState e).greet = e.greet := by
  unfold handleCollisionState; split <;> rfl

theorem hcs_hasCanvas (e : Entity) : (handleCollisionState e).hasCanvas = e.hasCanvas := by
  unfold handleCollisionState; split <;> rfl

theorem hcs_position (e : Entity) : (handleCollisionState e).position = e.position := by
  unfold handleCollisionState; split <;> rfl

theorem hcs_width (e : Entity) : (handleCollisionState e).width = e.width := by
  unfold handleCollisionState; split <;> rfl

theorem hcs_height (e : Entity) : (handleCollisionState e).height = e.height := by
  unfold handleCollisionState; split <;> rfl

theorem hcs_collisionData (e : Entity) :
    (handleCollisionState e).collisionData = e.collisionData := by
  unfold handleCollisionState; split <;> rfl

theorem hcs_collisionEvents (e : Entity) :
    (handleCollisionState e).collisionEvents = e.collisionEvents := by
  unfold handleCollisionState; split <;> rfl

/-- When the events list is nonempty, handleCollisionState rewrites the
movement flags wholesale from this object's touch points. -/
theorem hcs_movement_of (e : Entity) (h : e.collisionEvents ≠ []) :
    (handleCollisionState e).movement = movementOf e.collisionData.tpThis := by
  have hlen : 0 < e.collisionEvents.length := List.length_pos.mpr h
  simp only [handleCollisionState, if_pos hlen]
  cases htop : e.collisionData.tpThis.top <;>
    cases hbot : e.collisionData.tpThis.bottom <;>
    cases hleft : e.collisionData.tpThis.left <;>
    cases hright : e.collisionData.tpThis.right <;>
    simp [movementOf, htop, hbot, hleft, hright]

theorem hce_ref (e : Entity) : (handleCollisionEvent e).ref = e.ref := by
  simp only [handleCollisionEvent]
  split <;> rw [hcs_ref]

theorem hce_rect (e : Entity) : (handleCollisionEvent e).rect = e.rect := by
  simp only [handleCollisionEvent]
  split <;> rw [hcs_rect]

theorem hce_hitbox (e : Entity) : (handleCollisionEvent e).hitbox = e.hitbox := by
  simp only [handleCollisionEvent]
  split <;> rw [hcs_hitbox]

theorem hce_id (e : Entity) : (handleCollisionEvent e).id = e.id := by
  simp only [handleCollisionEvent]
  split <;> rw [hcs_id]

theorem hce_greet (e : Entity) : (handleCollisionEvent e).greet = e.greet := by
  simp only [handleCollisionEvent]
  split <;> rw [hcs_greet]

theorem hce_position (e : Entity) : (handleCollisionEvent e).position = e.position := by
  simp only [handleCollisionEvent]
  split <;> rw [hcs_position]

theorem hce_width (e : Entity) : (handleCollisionEvent e).width = e.width := by
  simp only [handleCollisionEvent]
  split <;> rw [hcs_width]

theorem hce_height (e : Entity) : (handleCollisionEvent e).height = e.height := by
  simp only [handleCollisionEvent]
  split <;> rw [hcs_height]

theorem hce_collisionData (e : Entity) :
    (handleCollisionEvent e).collisionData = e.collisionData := by
  simp only [handleCollisionEvent]
  split <;> rw [hcs_collisionData]

/-- After handleCollisionEvent, the events list is the old one, possibly
extended by the other object's id. -/
theorem hce_collisionEvents (e : Entity) :
    (handleCollisionEvent e).collisionEvents = e.collisionEvents ∨
    (handleCollisionEvent e).collisionEvents
      = e.collisionEvents ++ [e.collisionData.tpOther.id] := by
  simp only [handleCollisionEvent]
  split
  · left; rw [hcs_collisionEvents]
  · right; rw [hcs_collisionEvents]

/-- After handleCollisionEvent, the other object's id is in the events
list (it was pushed when absent). -/
theorem hce_mem (e : Entity) :
    e.collisionData.tpOther.id ∈ (handleCollisionEvent e).collisionEvents := by
  simp only [handleCollisionEvent]
  split
  · rw [hcs_collisionEvents]; assumption
  · rw [hcs_collisionEvents]
    exact List.mem_append_right _ (List.mem_singleton.mpr rfl)

/-- After handleCollisionEvent, the events list is nonempty. -/
theorem hce_ne_nil (e : Entity) : (handleCollisionEvent e).collisionEvents ≠ [] := by
  intro hnil
  have := hce_mem e
  rw [hnil] at this
  exact List.not_mem_nil _ this

/-- handleCollisionEvent preserves distinctness of the events list. -/
theorem hce_nodup (e : Entity) (h : e.collisionEvents.Nodup) :
    (handleCollisionEvent e).collisionEvents.Nodup := by
  simp only [handleCollisionEvent]
  split
  · rw [hcs_collisionEvents]; exact h
  · rw [hcs_collisionEvents]
    simp only [List.nodup_append, List.nodup_singleton, List.disjoint_singleton]
    exact ⟨h, trivial, by assumption⟩

/-- handleCollisionEvent overwrites the movement flags from this object's
touch points (its events list is nonempty by then). -/
theorem hce_movement (e : Entity) :
    (handleCollisionEvent e).movement = movementOf e.collisionData.tpThis := by
  simp only [handleCollisionEvent]
  split
  · rename_i hmem
    rw [hcs_movement_of _ (List.ne_nil_of_mem hmem)]
  · rw [hcs_movement_of]
    simp

/-- isCollision only reads rect, hitbox, id and greet of self. -/
theorem isCollision_congr (e1 e2 o : Entity) (hr : e1.rect = e2.rect)
    (hh : e1.hitbox = e2.hitbox) (hi : e1.id = e2.id) (hg : e1.greet = e2.greet) :
    isCollision e1 o = isCollision e2 o := by
  unfold isCollision
  rw [hr, hh, hi, hg]

/-- validB only reads ref of self. -/
theorem validB_congr (e1 e2 o : Entity) (h : e1.ref = e2.ref) :
    validB e1 o = validB e2 o := by
  unfold validB
  rw [h]

/-- hitB only reads ref, rect, hitbox, id and greet of self. -/
theorem hitB_congr (e1 e2 o : Entity) (h1 : e1.ref = e2.ref) (hr : e1.rect = e2.rect)
    (hh : e1.hitbox = e2.hitbox) (hi : e1.id = e2.id) (hg : e1.greet = e2.greet) :
    hitB e1 o = hitB e2 o := by
  unfold hitB
  rw [validB_congr _ _ _ h1, isCollision_congr _ _ _ hr hh hi hg]

/-- The collision loop never changes the identity or geometry fields of
self: ref, rect, hitbox, id, greet, position, width, height. -/
theorem ccLoop_fields (l : List Entity) : ∀ (e : Entity) (d : Bool),
    (ccLoop e d l).1.ref = e.ref ∧ (ccLoop e d l).1.rect = e.rect ∧
    (ccLoop e d l).1.hitbox = e.hitbox ∧ (ccLoop e d l).1.id = e.id ∧
    (ccLoop e d l).1.greet = e.greet ∧ (ccLoop e d l).1.position = e.position ∧
    (ccLoop e d l).1.width = e.width ∧ (ccLoop e d l).1.height = e.height := by
  induction l with
  | nil => exact fun e d => ⟨rfl, rfl, rfl, rfl, rfl, rfl, rfl, rfl⟩
  | cons a rest ih =>
    intro e d
    simp only [ccLoop]
    split
    · split
      · exact ⟨((ih _ _).1).trans (hce_ref _), ((ih _ _).2.1).trans (hce_rect _),
          ((ih _ _).2.2.1).trans (hce_hitbox _), ((ih _ _).2.2.2.1).trans (hce_id _),
          ((ih _ _).2.2.2.2.1).trans (hce_greet _),
          ((ih _ _).2.2.2.2.2.1).trans (hce_position _),
          ((ih _ _).2.2.2.2.2.2.1).trans (hce_width _),
          ((ih _ _).2.2.2.2.2.2.2).trans (hce_height _)⟩
      · exact ih _ _
    · exact ih _ _

/-- The detected flag after the loop: the incoming flag or-ed with
whether any registry member passes the guard and hits self. -/
theorem ccLoop_detected (l : List Entity) : ∀ (e : Entity) (d : Bool),
    (ccLoop e d l).2 = (d || l.any (fun o => hitB e o)) := by
  induction l with
  | nil => intro e d; simp [ccLoop]
  | cons a rest ih =>
    intro e d
    simp only [ccLoop, List.any_cons]
    split
    · rename_i hv
      split
      · rename_i hh
        have ha : hitB e a = true := by
          unfold hitB
          rw [hv]
          simpa using hh
        have hcongr : ∀ o : Entity,
            hitB (handleCollisionEvent { e with collisionData := isCollision e a }) o
              = hitB e o := fun o =>
          hitB_congr _ _ o (hce_ref _) (hce_rect _) (hce_hitbox _) (hce_id _) (hce_greet _)
        rw [ih]
        simp [ha, hcongr]
      · rename_i hh
        have ha : hitB e a = false := by
          unfold hitB
          simp only [Bool.and_eq_false_iff]
          right
          simpa using hh
        have hcongr : ∀ o : Entity,
            hitB { e with collisionData := isCollision e a } o = hitB e o := fun o =>
          hitB_congr _ _ o rfl rfl rfl rfl rfl
        rw [ih]
        simp [ha, hcongr]
    · rename_i hv
      have ha : hitB e a = false := by
        unfold hitB
        simp only [Bool.and_eq_false_iff]
        left
        simpa using hv
      rw [ih]
      simp [ha]

/-- The loop only ever appends to the collision-events list. -/
theorem ccLoop_events (l : List Entity) : ∀ (e : Entity) (d : Bool),
    ∃ t, (ccLoop e d l).1.collisionEvents = e.collisionEvents ++ t := by
  induction l with
  | nil => intro e d; exact ⟨[], by simp [ccLoop]⟩
  | cons a rest ih =>
    intro e d
    simp only [ccLoop]
    split
    · split
      · obtain ⟨t1, ht1⟩ :=
          ih (handleCollisionEvent { e with collisionData := isCollision e a }) true
        rcases hce_collisionEvents ({ e with collisionData := isCollision e a }) with h | h
        · exact ⟨t1, by rw [ht1, h]⟩
        · exact ⟨_, by rw [ht1, h, List.append_assoc]⟩
      · exact ih _ _
    · exact ih _ _

/-- Every registry member that passes the guard and hits self ends up
recorded in the collision-events list after the loop. -/
theorem ccLoop_mem_hit (l : List Entity) : ∀ (e : Entity) (d : Bool) (o : Entity),
    o ∈ l → hitB e o = true → o.id ∈ (ccLoop e d l).1.collisionEvents := by
  induction l with
  | nil => intro e d o ho _; exact absurd ho (List.not_mem_nil o)
  | cons a rest ih =>
    intro e d o ho hhit
    simp only [ccLoop]
    rcases List.mem_cons.mp ho with heq | hmem
    · subst heq
      have h2 := hhit
      unfold hitB at h2
      rw [Bool.and_eq_true] at h2
      obtain ⟨hv, hh⟩ := h2
      rw [if_pos hv]
      have hh2 : ({ e with collisionData := isCollision e o } : Entity).collisionData.hit
          = true := hh
      rw [if_pos hh2]
      obtain ⟨t, ht⟩ := ccLoop_events rest
        (handleCollisionEvent { e with collisionData := isCollision e o }) true
      rw [ht]
      exact List.mem_append_left _ (hce_mem _)
    · split
      · rename_i ha
        split
        · exact ih _ _ o hmem (by
            rw [hitB_congr
              (handleCollisionEvent { e with collisionData := isCollision e a }) e o
              (hce_ref _) (hce_rect _) (hce_hitbox _) (hce_id _) (hce_greet _)]
            exact hhit)
        · exact ih _ _ o hmem hhit
      · exact ih _ _ o hmem hhit

/-- The loop preserves distinctness of the collision-events list. -/
theorem ccLoop_nodup (l : List Entity) : ∀ (e : Entity) (d : Bool),
    e.collisionEvents.Nodup → (ccLoop e d l).1.collisionEvents.Nodup := by
  induction l with
  | nil => intro e d h; exact h
  | cons a rest ih =>
    intro e d h
    simp only [ccLoop]
    split
    · split
      · exact ih _ _ (hce_nodup _ h)
      · exact ih _ _ h
    · exact ih _ _ h

/-- After the loop, collisionData is the isCollision result against the
last registry member passing the guard (untouched when none passes). -/
theorem ccLoop_lastData (l : List Entity) : ∀ (e : Entity) (d : Bool),
    (ccLoop e d l).1.collisionData =
      (match (l.filter (fun o => validB e o)).getLast? with
       | some o => isCollision e o
       | none => e.collisionData) := by
  induction l with
  | nil => intro e d; simp [ccLoop]
  | cons a rest ih =>
    intro e d
    simp only [ccLoop, List.filter_cons]
    split
    · split
      · have hval : ∀ o : Entity,
            validB (handleCollisionEvent { e with collisionData := isCollision e a }) o
              = validB e o := fun o =>
          validB_congr (handleCollisionEvent { e with collisionData := isCollision e a })
            e o (hce_ref _)
        have hcol : ∀ o : Entity,
            isCollision (handleCollisionEvent { e with collisionData := isCollision e a }) o
              = isCollision e o := fun o =>
          isCollision_congr (handleCollisionEvent
              { e with collisionData := isCollision e a }) e o
            (hce_rect _) (hce_hitbox _) (hce_id _) (hce_greet _)
        have hcd : (handleCollisionEvent
            { e with collisionData := isCollision e a }).collisionData
            = isCollision e a := hce_collisionData _
        rw [ih]
        simp only [hval, hcol, hcd]
        cases hfl : rest.filter (fun o => validB e o) with
        | nil => simp
        | cons b bs =>
          rw [List.getLast?_cons_cons]
          cases hbs : (b :: bs).getLast? with
          | none => simp at hbs
          | some x => rfl
      · have hval : ∀ o : Entity,
            validB ({ e with collisionData := isCollision e a } : Entity) o = validB e o :=
          fun o => validB_congr _ _ o rfl
        have hcol : ∀ o : Entity,
            isCollision ({ e with collisionData := isCollision e a } : Entity) o
              = isCollision e o := fun o => isCollision_congr _ _ o rfl rfl rfl rfl
        rw [ih]
        simp only [hval, hcol]
        cases hfl : rest.filter (fun o => validB e o) with
        | nil => simp
        | cons b bs =>
          rw [List.getLast?_cons_cons]
          cases hbs : (b :: bs).getLast? with
          | none => simp at hbs
          | some x => rfl
    · exact ih _ _

/-- After the loop, the movement flags come from the touch points of the
last registry member that hit self (untouched when none hit): flags are
overwritten per hit, never merged across hitting members. -/
theorem ccLoop_lastMove (l : List Entity) : ∀ (e : Entity) (d : Bool),
    (ccLoop e d l).1.movement =
      (match (l.filter (fun o => hitB e o)).getLast? with
       | some o => movementOf (isCollision e o).tpThis
       | none => e.movement) := by
  induction l with
  | nil => intro e d; simp [ccLoop]
  | cons a rest ih =>
    intro e d
    simp only [ccLoop, List.filter_cons]
    split
    · rename_i hv
      split
      · rename_i hh
        have ha : hitB e a = true := by
          unfold hitB
          rw [hv]
          simpa using hh
        rw [if_pos ha]
        have hhit : ∀ o : Entity,
            hitB (handleCollisionEvent { e with collisionData := isCollision e a }) o
              = hitB e o := fun o =>
          hitB_congr (handleCollisionEvent { e with collisionData := isCollision e a })
            e o (hce_ref _) (hce_rect _) (hce_hitbox _) (hce_id _) (hce_greet _)
        have hcol : ∀ o : Entity,
            isCollision (handleCollisionEvent { e with collisionData := isCollision e a }) o
              = isCollision e o := fun o =>
          isCollision_congr (handleCollisionEvent
              { e with collisionData := isCollision e a }) e o
            (hce_rect _) (hce_hitbox _) (hce_id _) (hce_greet _)
        have hmv : (handleCollisionEvent
            { e with collisionData := isCollision e a }).movement
            = movementOf (isCollision e a).tpThis := hce_movement _
        rw [ih]
        simp only [hhit, hcol, hmv]
        cases hfl : rest.filter (fun o => hitB e o) with
        | nil => simp
        | cons b bs =>
          rw [List.getLast?_cons_cons]
          cases hbs : (b :: bs).getLast? with
          | none => simp at hbs
          | some x => rfl
      · rename_i hh
        have ha : hitB e a = false := by
          unfold hitB
          simp only [Bool.and_eq_false_iff]
          right
          simpa using hh
        rw [if_neg (by simp [ha])]
        have hhit : ∀ o : Entity,
            hitB ({ e with collisionData := isCollision e a } : Entity) o = hitB e o :=
          fun o => hitB_congr _ _ o rfl rfl rfl rfl rfl
        have hcol : ∀ o : Entity,
            isCollision ({ e with collisionData := isCollision e a } : Entity) o
              = isCollision e o := fun o => isCollision_congr _ _ o rfl rfl rfl rfl
        rw [ih]
        simp only [hhit, hcol]
    · rename_i hv
      have ha : hitB e a = false := by
        unfold hitB
        simp only [Bool.and_eq_false_iff]
        left
        simpa using hv
      rw [if_neg (by simp [ha])]
      exact ih _ _

theorem collisionChecks_width (self : Entity) (registry : List Entity) :
    (collisionChecks self registry).width = self.width := by
  simp only [collisionChecks]
  split
  · exact (ccLoop_fields registry self false).2.2.2.2.2.2.1
  · exact (ccLoop_fields registry self false).2.2.2.2.2.2.1

theorem collisionChecks_height (self : Entity) (registry : List Entity) :
    (collisionChecks self registry).height = self.height := by
  simp only [collisionChecks]
  split
  · exact (ccLoop_fields registry self false).2.2.2.2.2.2.2
  · exact (ccLoop_fields registry self false).2.2.2.2.2.2.2

/-- Every guard-passing, hitting registry member is recorded by a full
collisionChecks pass. -/
theorem cc_mem_hit (self : Entity) (registry : List Entity) (o : Entity)
    (ho : o ∈ registry) (hhit : hitB self o = true) :
    o.id ∈ (collisionChecks self registry).collisionEvents := by
  have hdet : (ccLoop self false registry).2 = true := by
    rw [ccLoop_detected]
    simp only [Bool.false_or, List.any_eq_true]
    exact ⟨o, ho, hhit⟩
  simp only [collisionChecks]
  rw [if_pos hdet]
  exact ccLoop_mem_hit registry self false o ho hhit

/-- Claim C2: the collision detector reports hit = true iff the two inset
rectangles overlap under strict inequalities on all four edge comparisons
(touching edges exactly do not count); in particular, with no inset,
rectangles 0,0,50,50 and 40,40,90,90 yield hit = true. -/
theorem claim_C2 :
    (∀ self other : Entity,
      (isCollision self other).hit = true ↔
        specStrictOverlap (specInsetRect self.rect self.hitbox)
          (specInsetRect other.rect other.hitbox)) ∧
    (isCollision entA entB).hit = true := by
  constructor
  · intro self other
    simp only [isCollision, specStrictOverlap, specInsetRect, Rect.width, Rect.height,
      Bool.and_eq_true, decide_eq_true_eq]
    constructor
    · rintro ⟨⟨⟨h1, h2⟩, h3⟩, h4⟩
      exact ⟨h1, h2, h3, h4⟩
    · rintro ⟨h1, h2, h3, h4⟩
      exact ⟨⟨⟨h1, h2⟩, h3⟩, h4⟩
  · norm_num [isCollision, entA, entB, baseEnt, rectA, rectB, hbZero, Rect.width, Rect.height]

/-- Witness for claim C2: the biconditional applied at the concrete
scenario rectangles, forward direction. -/
theorem claim_C2_wit :
    specStrictOverlap (specInsetRect entA.rect entA.hitbox)
      (specInsetRect entB.rect entB.hitbox) :=
  (claim_C2.1 entA entB).mp
    (by norm_num [isCollision, entA, entB, baseEnt, rectA, rectB, hbZero, Rect.width, Rect.height])

/-- Claim C5: after resize with new viewport W2 x H2 and previous scale
W x H, size (= width = height) equals H2 divided by the scale factor, the
position is scaled by the exact ratio of new to old dimensions, and the
per-press step velocities become W2 and H2 over the step factor;
concretely, for a 1000 x 800 viewport and scale factor 5 the size is 160,
and with step factor 1000 the y-axis step is 0.8. -/
theorem claim_C5 :
    (∀ (W2 H2 : ℚ) (c : CharacterGeom),
      (resize W2 H2 c).size = H2 / c.scaleFactor ∧
      (resize W2 H2 c).width = H2 / c.scaleFactor ∧
      (resize W2 H2 c).height = H2 / c.scaleFactor ∧
      (resize W2 H2 c).position.x = c.position.x * W2 / c.scale.width ∧
      (resize W2 H2 c).position.y = c.position.y * H2 / c.scale.height ∧
      (resize W2 H2 c).xVelocity = W2 / c.stepFactor ∧
      (resize W2 H2 c).yVelocity = H2 / c.stepFactor) ∧
    (resize 1000 800 demoGeom).size = 160 ∧
    (resize 1000 800 demoGeom).yVelocity = 8 / 10 := by
  refine ⟨fun W2 H2 c => ⟨rfl, rfl, rfl, ?_, ?_, rfl, rfl⟩, ?_, ?_⟩
  · show c.position.x / c.scale.width * W2 = c.position.x * W2 / c.scale.width
    rw [div_mul_eq_mul_div]
  · show c.position.y / c.scale.height * H2 = c.position.y * H2 / c.scale.height
    rw [div_mul_eq_mul_div]
  · norm_num [resize, demoGeom]
  · norm_num [resize, demoGeom]

/-- Claim C4: after one full collisionChecks pass, collisionData holds
only the result for the last-evaluated (guard-passing) partner, and the
movement-permission flags are rewritten wholesale from the last hitting
partner's touch points rather than merged across partners, so when two
colliding partners conflict the last-evaluated pair wins. -/
theorem claim_C4 (self : Entity) (registry : List Entity) :
    ((collisionChecks self registry).collisionData =
      match (registry.filter (fun o => validB self o)).getLast? with
      | some o => isCollision self o
      | none => self.collisionData) ∧
    ((collisionChecks self registry).movement =
      match (registry.filter (fun o => hitB self o)).getLast? with
      | some o => movementOf (isCollision self o).tpThis
      | none => self.movement) := by
  constructor
  · simp only [collisionChecks]
    split
    · exact ccLoop_lastData registry self false
    · exact ccLoop_lastData registry self false
  · simp only [collisionChecks]
    split
    · exact ccLoop_lastMove registry self false
    · exact ccLoop_lastMove registry self false

/-- Claim C10: a collisionChecks pass resets collisionEvents to the empty
list exactly when no partner registers a hit; when at least one hit
occurs, each partner id is recorded at most once (distinctness is
preserved) and every previously recorded id is retained even when that
partner is no longer touching. -/
theorem claim_C10 (self : Entity) (registry : List Entity) :
    ((collisionChecks self registry).collisionEvents = [] ↔
      ∀ o ∈ registry, hitB self o = false) ∧
    (self.collisionEvents.Nodup → (collisionChecks self registry).collisionEvents.Nodup) ∧
    ((∃ o ∈ registry, hitB self o = true) →
      ∀ x ∈ self.collisionEvents, x ∈ (collisionChecks self registry).collisionEvents) := by
  refine ⟨⟨?_, ?_⟩, ?_, ?_⟩
  · intro hnil o ho
    cases hcase : hitB self o with
    | false => rfl
    | true =>
      have hdet : (ccLoop self false registry).2 = true := by
        rw [ccLoop_detected]
        simp only [Bool.false_or, List.any_eq_true]
        exact ⟨o, ho, hcase⟩
      have hmem := ccLoop_mem_hit registry self false o ho hcase
      simp only [collisionChecks] at hnil
      rw [if_pos hdet] at hnil
      rw [hnil] at hmem
      exact absurd hmem (List.not_mem_nil _)
  · intro hall
    have hdet : (ccLoop self false registry).2 = false := by
      rw [ccLoop_detected]
      simp only [Bool.false_or, List.any_eq_false]
      intro o ho
      simp [hall o ho]
    simp only [collisionChecks]
    rw [if_neg (by simp [hdet])]
  · intro hnd
    simp only [collisionChecks]
    split
    · exact ccLoop_nodup registry self false hnd
    · exact List.nodup_nil
  · rintro ⟨o, ho, hhit⟩ x hx
    have hdet : (ccLoop self false registry).2 = true := by
      rw [ccLoop_detected]
      simp only [Bool.false_or, List.any_eq_true]
      exact ⟨o, ho, hhit⟩
    simp only [collisionChecks]
    rw [if_pos hdet]
    obtain ⟨t, ht⟩ := ccLoop_events registry self false
    rw [ht]
    exact List.mem_append_left _ hx

/-- Witness for claim C10: a pass over a one-hitter registry by an entity
that already recorded the id old keeps old recorded and stays duplicate
free. -/
theorem claim_C10_wit :
    ("old" ∈ (collisionChecks selfOld [entB]).collisionEvents) ∧
    (collisionChecks selfOld [entB]).collisionEvents.Nodup :=
  ⟨(claim_C10 selfOld [entB]).2.2
      ⟨entB, List.mem_singleton.mpr rfl, by
        norm_num [hitB, validB, selfOld, entB, baseEnt, isCollision, rectA, rectB,
          hbZero, Rect.width, Rect.height]⟩
      ("old") (by simp [selfOld, baseEnt]),
   (claim_C10 selfOld [entB]).2.1 (by simp [selfOld, baseEnt])⟩

/-- Claim C3, corrected: a movable entity's update (Character.update)
runs the collision detector before integrating movement, so every
guard-passing partner that hits it gets its id recorded; a stationary
entity's update (Npc.update) only draws and leaves every modelled field,
collision state included, unchanged. -/
theorem claim_C3 :
    (∀ (W H : ℚ) (registry : List Entity) (e o : Entity),
      o ∈ registry → hitB e o = true →
        o.id ∈ (characterUpdate W H registry e).collisionEvents) ∧
    (∀ e : Entity, npcUpdate e = e) := by
  constructor
  · intro W H registry e o ho hhit
    have hev : (characterUpdate W H registry e).collisionEvents
        = (collisionChecks e registry).collisionEvents := by
      simp only [characterUpdate]
    rw [hev]
    exact cc_mem_hit e registry o ho hhit
  · intro e
    rfl

/-- Witness for claim C3: entity B overlaps entity A, so a Character
update of A over the registry containing B records B's id. -/
theorem claim_C3_wit : entB.id ∈ (characterUpdate 100 100 [entB] entA).collisionEvents :=
  claim_C3.1 100 100 [entB] entA entB (List.mem_singleton.mpr rfl) (by
    norm_num [hitB, validB, entA, entB, baseEnt, isCollision, rectA, rectB,
      hbZero, Rect.width, Rect.height])

/-- Counterexample for claim C3: Npc.update does not run the collision
detector: with a partner whose rectangle overlaps the stationary
entity's, the update leaves the entity unchanged, its hit flag stale
(false) and the partner unrecorded. -/
theorem claim_C3_cex :
    npcUpdate entA = entA ∧
    hitB entA entB = true ∧
    (npcUpdate entA).collisionData.hit = false ∧
    entB.id ∉ (npcUpdate entA).collisionEvents := by
  refine ⟨rfl, ?_, rfl, ?_⟩
  · norm_num [hitB, validB, entA, entB, baseEnt, isCollision, rectA, rectB,
      hbZero, Rect.width, Rect.height]
  · simp [npcUpdate, entA, entB, baseEnt]

/-- Claim C1, corrected: after Character.update with viewport W x H, when
the entity fits the viewport (width at most W, height at most H), its
position lands in the box from 0,0 to W minus width, H minus height; a
stationary Npc.update moves nothing, so an out-of-bounds Npc stays
out of bounds. -/
theorem claim_C1 (W H : ℚ) (registry : List Entity) (e : Entity)
    (hw : e.width ≤ W) (hh : e.height ≤ H) :
    ((0 ≤ (characterUpdate W H registry e).position.x ∧
      (characterUpdate W H registry e).position.x ≤ W - e.width) ∧
     (0 ≤ (characterUpdate W H registry e).position.y ∧
      (characterUpdate W H registry e).position.y ≤ H - e.height)) ∧
    (∀ n : Entity, (npcUpdate n).position = n.position) := by
  have hwe : (collisionChecks e registry).width = e.width :=
    collisionChecks_width e registry
  have hhe : (collisionChecks e registry).height = e.height :=
    collisionChecks_height e registry
  simp only [characterUpdate]
  rw [hwe, hhe]
  refine ⟨⟨⟨?_, ?_⟩, ⟨?_, ?_⟩⟩, fun n => rfl⟩ <;> split_ifs <;> linarith

/-- Witness for claim C1: a 10 x 10 entity at 95,-5 moving right by 10 in
a 100 x 100 viewport ends up inside the box after clamping. -/
theorem claim_C1_wit :
    ((0 ≤ (characterUpdate 100 100 [] entMover).position.x ∧
      (characterUpdate 100 100 [] entMover).position.x ≤ 100 - entMover.width) ∧
     (0 ≤ (characterUpdate 100 100 [] entMover).position.y ∧
      (characterUpdate 100 100 [] entMover).position.y ≤ 100 - entMover.height)) ∧
    (∀ n : Entity, (npcUpdate n).position = n.position) :=
  claim_C1 100 100 [] entMover (by norm_num [entMover, baseEnt])
    (by norm_num [entMover, baseEnt])

/-- Counterexample for claim C1: a stationary entity standing at x = 200
in a viewport of width 100 still stands there after its update, violating
the claimed bound x at most W minus width. -/
theorem claim_C1_cex :
    ¬ ((npcUpdate npcStale).position.x ≤ (100 : ℚ) - npcStale.width) := by
  norm_num [npcUpdate, npcStale, baseEnt]

/-- destroy on a cons: drop the head when it is self, otherwise keep the
head and destroy in the tail. -/
theorem destroy_cons (a : GObj) (l : List GObj) (s : GObj) :
    destroy (a :: l) s = if a = s then l else a :: destroy l s := by
  by_cases h : a = s
  · simp [destroy, jsIndexOf, h]
  · cases hj : jsIndexOf l s with
    | none => simp [destroy, jsIndexOf, h, hj]
    | some i => simp [destroy, jsIndexOf, h, hj, List.eraseIdx_cons_succ]

/-- destroy of an absent object is a no-op (indexOf finds nothing). -/
theorem destroy_not_mem (l : List GObj) (s : GObj) (h : s ∉ l) : destroy l s = l := by
  induction l with
  | nil => rfl
  | cons a rest ih =>
    rw [destroy_cons]
    rw [if_neg (by rintro rfl; exact h (List.mem_cons_self a rest))]
    rw [ih (fun hm => h (List.mem_cons_of_mem a hm))]

/-- Claim C9: for every registry and entity occurring at most once in it
(always true of reachable registries, since each constructed object is
pushed exactly once), a second destroy of the same entity is a no-op:
no error and the registry stays exactly as after the first call. -/
theorem claim_C9 (registry : List GObj) (self : GObj)
    (h : registry.count self ≤ 1) :
    destroy (destroy registry self) self = destroy registry self := by
  induction registry with
  | nil => rfl
  | cons a rest ih =>
    rw [destroy_cons]
    by_cases ha : a = self
    · rw [if_pos ha]
      apply destroy_not_mem
      subst ha
      rw [List.count_cons_self] at h
      exact List.count_eq_zero.mp (by omega)
    · rw [if_neg ha, destroy_cons, if_neg ha, ih]
      rw [List.count_cons_of_ne (fun hev => ha hev.symm)] at h
      exact h

/-- Witness for claim C9: destroying g0 twice in the registry g0, g1
equals destroying it once. -/
theorem claim_C9_wit :
    destroy (destroy [g0, g1] g0) g0 = destroy [g0, g1] g0 :=
  claim_C9 [g0, g1] g0 (by decide)

/-- destroy of the last element, absent from the front, removes exactly
that element. -/
theorem destroy_concat (xs : List GObj) (x : GObj) (hx : x ∉ xs) :
    destroy (xs ++ [x]) x = xs := by
  induction xs with
  | nil => simp [destroy_cons]
  | cons a rest ih =>
    rw [List.cons_append, destroy_cons]
    rw [if_neg (by rintro rfl; exact hx (List.mem_cons_self a rest))]
    rw [ih (fun hm => hx (List.mem_cons_of_mem a hm))]

/-- The teardown loop on a duplicate-free registry destroys every object
in reverse insertion order and leaves the registry empty. -/
theorem teardown_spec (objs : List GObj) : ∀ log : List GObj, objs.Nodup →
    teardownLoop objs.length objs log = some ([], log ++ objs.reverse) := by
  induction objs using List.reverseRecOn with
  | nil => intro log _; simp [teardownLoop]
  | append_singleton xs x ih =>
    intro log h
    rw [List.nodup_append] at h
    obtain ⟨hnd, -, hdisj⟩ := h
    have hx : x ∉ xs := fun hm => hdisj hm (List.mem_singleton.mpr rfl)
    have hlen : (xs ++ [x]).length = xs.length + 1 := by simp
    rw [hlen]
    simp only [teardownLoop, List.getElem?_concat_length]
    rw [destroy_concat xs x hx, ih (log ++ [x]) hnd]
    simp [List.reverse_append]

/-- Claim C6: when the continue flag is false at the start of a tick the
controller runs handleLevelEnd, which destroys every registry entity in
reverse insertion order, advances the level index by exactly one, and
(when a level remains) starts it with a freshly emptied registry holding
only newly constructed entities, none from the previous level.  The
hypotheses are the reachable-state invariants: object identities in the
registry are distinct and below the fresh-identity supply. -/
theorem claim_C6 (levels : List Nat) (s : GameState)
    (_hflag : s.continueLevel = false)
    (hnd : s.gameObjects.Nodup)
    (href : ∀ g ∈ s.gameObjects, g.ref < s.nextRef) :
    ∃ s2 log, handleLevelEnd levels s = some (s2, log) ∧
      log = s.gameObjects.reverse ∧
      s2.currentLevelIndex = s.currentLevelIndex + 1 ∧
      (∀ g ∈ s2.gameObjects,
        g.levelIdx = s.currentLevelIndex + 1 ∧ g ∉ s.gameObjects) ∧
      (s.currentLevelIndex + 1 < levels.length → s2.continueLevel = true) ∧
      (levels.length ≤ s.currentLevelIndex + 1 → s2.gameObjects = []) := by
  unfold handleLevelEnd
  rw [teardown_spec s.gameObjects [] hnd]
  refine ⟨_, _, rfl, by simp, ?_, ?_, ?_, ?_⟩
  · unfold loadLevel
    split <;> rfl
  · intro g hg
    unfold loadLevel at hg
    split at hg
    · simp at hg
    · simp only [List.mem_map, List.mem_range] at hg
      obtain ⟨k, -, rfl⟩ := hg
      refine ⟨rfl, fun hmem => ?_⟩
      have := href _ hmem
      simp only at this
      omega
  · intro hlt
    unfold loadLevel
    rw [if_neg (by simp only; omega)]
  · intro hge
    unfold loadLevel
    rw [if_pos (by simp only; omega)]

/-- Witness for claim C6: ending level A of the two-level game; the next
level starts with one fresh entity. -/
theorem claim_C6_wit :
    ∃ s2 log, handleLevelEnd [2, 1] demoEndState = some (s2, log) ∧
      log = demoEndState.gameObjects.reverse ∧
      s2.currentLevelIndex = demoEndState.currentLevelIndex + 1 ∧
      (∀ g ∈ s2.gameObjects,
        g.levelIdx = demoEndState.currentLevelIndex + 1 ∧ g ∉ demoEndState.gameObjects) ∧
      (demoEndState.currentLevelIndex + 1 < [2, 1].length → s2.continueLevel = true) ∧
      ([2, 1].length ≤ demoEndState.currentLevelIndex + 1 → s2.gameObjects = []) :=
  claim_C6 [2, 1] demoEndState rfl (by decide) (by decide)

/-- Claim C7: constructing a Character whose descriptor is absent or
lacks a sprite source raises an error during construction, before the
registry push, so the registry is unchanged by the failed construction. -/
theorem claim_C7 (data : Option SpriteData) (gameObjects : List GObj)
    (nextRef levelIdx : Nat)
    (h : data = none ∨ ∃ d, data = some d ∧ d.src = none) :
    ∃ msg, characterConstructor data gameObjects nextRef levelIdx
      = Except.error (msg, gameObjects) := by
  rcases h with rfl | ⟨d, rfl, hsrc⟩
  · exact ⟨_, rfl⟩
  · refine ⟨"Sprite data is required", ?_⟩
    simp only [characterConstructor]
    rw [hsrc]

/-- Witness for claim C7: a null descriptor fails construction and the
registry keeps exactly its prior entry. -/
theorem claim_C7_wit :
    ∃ msg, characterConstructor none [g0] 5 0 = Except.error (msg, [g0]) :=
  claim_C7 none [g0] 5 0 (Or.inl rfl)

/-- Claim C8, against the code as written: for every stationary entity
built from a quiz descriptor, openPromptPanel renders one text input per
(shuffled) question, but the displayed title is always the fallback
Questions: the constructor stores the title string itself in this.quiz,
so npc.quiz.title is undefined.  In particular the title differs from
the quiz title Linux Command Quiz of the Tux descriptor. -/
theorem claim_C8_bug :
    (∀ (q : Quiz) (shuffled : List String → List String),
      openPromptPanel (npcPanelData (some q) shuffled)
        = Except.ok { title := "Questions"
                      rows := (shuffled q.questions).map
                        (fun s => { questionText := s, textInputs := 1 })
                      hasSubmitButtonRow := true }) ∧
    "Questions" ≠ "Linux Command Quiz" := by
  constructor
  · intro q shuffled
    rfl
  · decide

end AdventureGame
